import Mathlib

/-!
# Verification of the MedALertAI reminder subsystem

A shallow embedding of the medication-reminder backend
(`backend/services/notification_scheduler.py`,
`backend/utils/user_manager.py`) together with proofs of the
specification's testable properties.

String-processing code is embedded at the level of `List Char`,
mirroring the Python string operations (`strip`, `upper`, `replace`,
`split`, `int(...)`) character by character; fallible steps return
`Option`, an exception caught by the Python `try`/`except` block
corresponding to `none`.
-/

namespace MedAlert

/-! ## Python string primitives (ASCII fragment) -/

/-- ASCII whitespace, as stripped by Python `str.strip()` on ASCII input. -/
def isSpaceChar (c : Char) : Bool :=
  c.toNat = 32 || (9 ≤ c.toNat && c.toNat ≤ 13)

/-- `str.strip()`: remove leading and trailing whitespace. -/
def pyStrip (l : List Char) : List Char :=
  ((l.dropWhile isSpaceChar).reverse.dropWhile isSpaceChar).reverse

/-- `str.upper()` on ASCII characters. -/
def upperChar (c : Char) : Char :=
  if 97 ≤ c.toNat && c.toNat ≤ 122 then Char.ofNat (c.toNat - 32) else c

/-- `str.upper()` applied character-wise. -/
def pyUpper (l : List Char) : List Char :=
  l.map upperChar

/-- Python `pat in s` (substring containment). -/
def containsSub (pat : List Char) : List Char → Bool
  | [] => pat.isEmpty
  | c :: t => pat.isPrefixOf (c :: t) || containsSub pat t

/-- Fuel-driven worker for `replaceAll`; the fuel is the length of the
input, and each step consumes at least one character. -/
def replaceAllAux (pat rep : List Char) : Nat → List Char → List Char
  | 0, l => l
  | _ + 1, [] => []
  | fuel + 1, c :: t =>
    if !pat.isEmpty && pat.isPrefixOf (c :: t) then
      rep ++ replaceAllAux pat rep fuel ((c :: t).drop pat.length)
    else
      c :: replaceAllAux pat rep fuel t

/-- Python `s.replace(pat, rep)`: replace every (leftmost,
non-overlapping) occurrence. -/
def replaceAll (pat rep l : List Char) : List Char :=
  replaceAllAux pat rep l.length l

/-- Python `s.replace(pat, rep, 1)`: replace the first occurrence only. -/
def replaceFirst (pat rep : List Char) : List Char → List Char
  | [] => []
  | c :: t =>
    if pat.isPrefixOf (c :: t) then rep ++ (c :: t).drop pat.length
    else c :: replaceFirst pat rep t

/-- Python `s.split(sep)` for a one-character separator. -/
def splitOnCh (sep : Char) : List Char → List (List Char)
  | [] => [[]]
  | c :: t =>
    if c = sep then [] :: splitOnCh sep t
    else
      match splitOnCh sep t with
      | [] => [[c]]
      | h :: r => (c :: h) :: r

/-- ASCII decimal digit test. -/
def isDigitChar (c : Char) : Bool :=
  48 ≤ c.toNat && c.toNat ≤ 57

/-- Numeric value of an ASCII digit. -/
def digitVal (c : Char) : Nat :=
  c.toNat - 48

/-- Worker for Python's integer-literal digit part: digits possibly
separated by single underscores. -/
def parseDigitsCore (acc : Nat) : List Char → Option Nat
  | [] => some acc
  | '_' :: c :: t =>
    if isDigitChar c then parseDigitsCore (acc * 10 + digitVal c) t else none
  | '_' :: [] => none
  | c :: t =>
    if isDigitChar c then parseDigitsCore (acc * 10 + digitVal c) t else none

/-- Digit part of Python `int(...)`: non-empty, underscores only between
digits. -/
def parseDigits : List Char → Option Nat
  | [] => none
  | c :: t => if isDigitChar c then parseDigitsCore (digitVal c) t else none

/-- Python `int(s)`: surrounding whitespace, optional sign, decimal
digits; `none` models the `ValueError` raised otherwise. -/
def pyInt (l : List Char) : Option Int :=
  match pyStrip l with
  | '+' :: rest => (parseDigits rest).map (fun n => (n : Int))
  | '-' :: rest => (parseDigits rest).map (fun n => -(n : Int))
  | rest => (parseDigits rest).map (fun n => (n : Int))

/-- Decimal digits of a natural number (fuel-driven so that it reduces
definitionally). -/
def natCharsAux : Nat → Nat → List Char
  | 0, _ => []
  | fuel + 1, n =>
    if n < 10 then [Char.ofNat (48 + n)]
    else natCharsAux fuel (n / 10) ++ [Char.ofNat (48 + n % 10)]

/-- Decimal representation of a natural number. -/
def natChars (n : Nat) : List Char :=
  natCharsAux (n + 1) n

/-- Python `str(i)` for an `int`. -/
def intChars (i : Int) : List Char :=
  if i < 0 then '-' :: natChars i.natAbs else natChars i.toNat

/-- Python `f"{n:02d}"` for a non-negative value. -/
def pad2Chars (n : Nat) : List Char :=
  if n < 10 then '0' :: natChars n else natChars n

/-! ## The timing parser (`MedicationScheduler._parse_time`) -/

/-- The final validation stage of `_parse_time`: split into hour and
minute, convert with `int(...)`, and check the 24-hour ranges (the
out-of-range case raises `ValueError`, i.e. `none`). -/
def validateHM (h m : Int) : Option (Nat × Nat) :=
  if 0 ≤ h && h ≤ 23 && 0 ≤ m && m ≤ 59 then some (h.toNat, m.toNat) else none

/-- Lines 326–338 of `_parse_time`: append `":00"` when no colon is
present, then split, convert and validate. -/
def finalParse (t : List Char) : Option (Nat × Nat) :=
  match splitOnCh ':' (if t.contains ':' then t else t ++ [':', '0', '0']) with
  | [hs, ms] =>
    match pyInt hs, pyInt ms with
    | some h, some m => validateHM h m
    | _, _ => none
  | _ => none

/-- Lines 303–324 of `_parse_time`: strip/uppercase, record the AM/PM
markers, delete them, and apply the 12-hour adjustments.  `none` models
an exception escaping this stage (e.g. a failing `int(...)` or a
`split` that does not produce exactly two parts). -/
def amPmStage (s : String) : Option (List Char) :=
  let t0 := pyUpper (pyStrip s.data)
  let hasPM := containsSub ['P', 'M'] t0
  let hasAM := containsSub ['A', 'M'] t0
  let t1 := pyStrip (replaceAll ['P', 'M'] [] (replaceAll ['A', 'M'] [] t0))
  if hasPM && !(['1', '2'].isPrefixOf t1) then
    if t1.contains ':' then
      match splitOnCh ':' t1 with
      | [hs, ms] => (pyInt hs).map (fun h => intChars (h + 12) ++ ':' :: ms)
      | _ => none
    else
      (pyInt t1).map (fun h => intChars (h + 12) ++ [':', '0', '0'])
  else if hasAM && ['1', '2'].isPrefixOf t1 then
    if t1.contains ':' then some (replaceFirst ['1', '2'] ['0', '0'] t1)
    else some ['0', '0', ':', '0', '0']
  else
    some t1

/-- The successful path of `_parse_time`, returning the validated hour
and minute; `none` corresponds to the `except` branch. -/
def parseTimeCore (s : String) : Option (Nat × Nat) :=
  match amPmStage s with
  | none => none
  | some t => finalParse t

/-- `f"{hour:02d}:{minute:02d}"`. -/
def fmtHHMM (h m : Nat) : String :=
  ⟨pad2Chars h ++ ':' :: pad2Chars m⟩

/-- `MedicationScheduler._parse_time`: parse a free-text timing string
into a 24-hour `"HH:MM"` string, falling back to `"09:00"` when any
step of the parse raises. -/
def parse_time (s : String) : String :=
  match parseTimeCore s with
  | some (h, m) => fmtHHMM h m
  | none => "09:00"

/-- A 12-hour clock string `"H:MM"` followed by an AM/PM suffix. -/
def time12 (h m : Nat) (suf : String) : String :=
  ⟨natChars h ++ ':' :: pad2Chars m ++ suf.data⟩

/-- A 12-hour clock string lacking a colon ("1PM"). -/
def time12h (h : Nat) (suf : String) : String :=
  ⟨natChars h ++ suf.data⟩

/-! ## Bounds of the successful parsing path -/

theorem validateHM_bounds {h m : Int} {a b : Nat}
    (hv : validateHM h m = some (a, b)) : a < 24 ∧ b < 60 := by
  unfold validateHM at hv
  split at hv
  · rename_i hcond
    simp only [Bool.and_eq_true, decide_eq_true_eq] at hcond
    injection hv with hv
    injection hv with h1 h2
    omega
  · exact absurd hv (by simp)

theorem finalParse_bounds {t : List Char} {a b : Nat}
    (hf : finalParse t = some (a, b)) : a < 24 ∧ b < 60 := by
  unfold finalParse at hf
  split at hf
  · split at hf
    · exact validateHM_bounds hf
    · exact absurd hf (by simp)
  · exact absurd hf (by simp)

theorem parseTimeCore_bounds {s : String} {a b : Nat}
    (hc : parseTimeCore s = some (a, b)) : a < 24 ∧ b < 60 := by
  unfold parseTimeCore at hc
  split at hc
  · exact absurd hc (by simp)
  · exact finalParse_bounds hc

/-! ## Claims about the timing parser -/

/-- C1 (counterexample): the timing parser does not map the frequency
code `"1-0-1"` to the trigger times 08:00 and 20:00; it returns the
fallback `"09:00"`.  The fixed frequency-code table exists only in the
prompt sent to the external vision-language model during extraction,
not in `_parse_time`. -/
theorem parse_time_frequency_code_counterexample :
    parse_time "1-0-1" = "09:00" ∧
    parse_time "1-0-1" ≠ "08:00" ∧ parse_time "1-0-1" ≠ "20:00" := by decide

/-- C1 (amended): frequency-code shorthands such as `"1-0-1"` are not
matched by any table in the timing parser; `int("1-0-1")` raises, so
every such code falls back to the parser's default time `"09:00"`. -/
theorem parse_time_frequency_codes_fallback :
    parse_time "1-0-1" = "09:00" ∧ parse_time "1-1-1" = "09:00" ∧
    parse_time "1-0-0" = "09:00" ∧ parse_time "0-0-1" = "09:00" ∧
    parse_time "2-0-1" = "09:00" := by decide

set_option maxHeartbeats 4000000 in
/-- C2: for every valid 12-hour clock string — hour `1..12` (unpadded),
minutes `00..59`, with or without a colon, with an AM/PM suffix — the
parser returns the correct 24-hour equivalent: PM hours other than 12
gain 12 hours, hour 12 maps to 12 (PM) or 00 (AM). -/
theorem parse_time_12hour_correct :
    ∀ h < 13, 1 ≤ h →
      (∀ m < 60,
        parse_time (time12 h m "PM") = fmtHHMM (h % 12 + 12) m ∧
        parse_time (time12 h m "AM") = fmtHHMM (h % 12) m) ∧
      parse_time (time12h h "PM") = fmtHHMM (h % 12 + 12) 0 ∧
      parse_time (time12h h "AM") = fmtHHMM (h % 12) 0 := by decide

/-- C2 witness: `"12:00AM"` parses to 00:00 and `"1:00PM"` to 13:00. -/
theorem parse_time_12hour_correct_witness :
    parse_time (time12 12 0 "AM") = fmtHHMM 0 0 ∧
    parse_time (time12 1 0 "PM") = fmtHHMM 13 0 :=
  ⟨((parse_time_12hour_correct 12 (by decide) (by decide)).1 0 (by decide)).2,
   ((parse_time_12hour_correct 1 (by decide) (by decide)).1 0 (by decide)).1⟩

/-- C3: the timing parser is total — for every input string it returns
a valid 24-hour time (hour below 24, minute below 60) — and whenever
the parsing pipeline fails (non-numeric hour or minute, out-of-range
values, or any other internal error), it returns exactly the fallback
default `"09:00"`. -/
theorem parse_time_total_and_fallback (s : String) :
    (∃ h m, h < 24 ∧ m < 60 ∧ parse_time s = fmtHHMM h m) ∧
    (parseTimeCore s = none → parse_time s = "09:00") := by
  constructor
  · rcases hc : parseTimeCore s with _ | ⟨h, m⟩
    · exact ⟨9, 0, by omega, by omega, by simp [parse_time, hc]; rfl⟩
    · obtain ⟨h1, h2⟩ := parseTimeCore_bounds hc
      exact ⟨h, m, h1, h2, by simp [parse_time, hc]⟩
  · intro hnone
    simp [parse_time, hnone]

/-- C3 witness: `"25:61"` (hour ≥ 24, minute ≥ 60) fails the parse and
yields the fallback. -/
theorem parse_time_total_and_fallback_witness :
    parseTimeCore "25:61" = none ∧ parse_time "25:61" = "09:00" :=
  ⟨by decide, (parse_time_total_and_fallback "25:61").2 (by decide)⟩

/-- C4 (counterexample): the range expression `"1:00AM-5:00PM"` does
not parse to its start time 01:00; the split on `":"` produces three
parts, the tuple unpacking raises, and the parser falls back to
`"09:00"`. -/
theorem parse_time_range_counterexample :
    parse_time "1:00AM-5:00PM" = "09:00" ∧
    parse_time "1:00AM-5:00PM" ≠ "01:00" := by decide

/-- C4 (amended): range expressions of the form `"<start>-<end>"` are
not supported by the parser; they take the internal error path and
return the fallback default `"09:00"` rather than the start time. -/
theorem parse_time_range_fallback :
    parse_time "1:00AM-5:00PM" = "09:00" ∧
    parse_time "12:00AM-5:00PM" = "09:00" ∧
    parse_time "9:00AM-12:00PM" = "09:00" ∧
    parse_time "1PM-5PM" = "09:00" ∧
    parse_time "8:00-10:00" = "09:00" := by decide

/-! ## Next-fire computation
(`MedicationScheduler._get_next_reminder_time` and the daily advance of
a scheduled job) -/

/-- Seconds in a day; instants are modelled as seconds since the epoch. -/
def secondsPerDay : Nat := 86400

/-- "Today at the trigger time": `datetime.combine(datetime.now().date(),
time(h, m))` for a current instant `now`. -/
def todayAt (now h m : Nat) : Nat :=
  now / secondsPerDay * secondsPerDay + (h * 3600 + m * 60)

/-- `MedicationScheduler._get_next_reminder_time`: today at the trigger
time if that instant has not yet passed, else tomorrow at the trigger
time. -/
def getNextReminderTime (now h m : Nat) : Nat :=
  if todayAt now h m ≤ now then todayAt now h m + secondsPerDay
  else todayAt now h m

/-- A job of the `schedule` library created by `every().day.at(...)`:
only its next-run instant matters here. -/
structure ScheduledJob where
  next_run : Nat
deriving DecidableEq

/-- Firing a daily job advances its next run by exactly one day. -/
def fireDailyJob (j : ScheduledJob) : ScheduledJob :=
  ⟨j.next_run + secondsPerDay⟩

/-- C5: when a reminder is added, its next fire is today at the trigger
time `HH:MM` if that instant is strictly later than `now`, otherwise
tomorrow at the trigger time; the next fire is always strictly in the
future, and each firing advances it by exactly 24 hours. -/
theorem next_fire_spec (now h m : Nat) (hh : h < 24) (hm : m < 60) :
    (now < todayAt now h m → getNextReminderTime now h m = todayAt now h m) ∧
    (todayAt now h m ≤ now →
      getNextReminderTime now h m = todayAt now h m + secondsPerDay) ∧
    now < getNextReminderTime now h m ∧
    (fireDailyJob ⟨getNextReminderTime now h m⟩).next_run
      = getNextReminderTime now h m + secondsPerDay := by
  unfold getNextReminderTime fireDailyJob todayAt secondsPerDay
  refine ⟨fun hlt => ?_, fun hle => ?_, ?_, rfl⟩ <;> split <;> omega

/-- C5 witness: at 08:05 on day zero (now = 29100 s) a trigger of 08:00
has already passed, so the next fire is the following day at 08:00
(115200 s). -/
theorem next_fire_spec_witness :
    getNextReminderTime 29100 8 0 = todayAt 29100 8 0 + secondsPerDay ∧
    getNextReminderTime 29100 8 0 = 115200 :=
  ⟨(next_fire_spec 29100 8 0 (by decide) (by decide)).2.1 (by decide),
   by decide⟩

/-! ## Delivery history (`MedicationScheduler._store_reminder_history`) -/

/-- One entry of a patient's reminder-history file. -/
structure HistoryRecord where
  timestamp : String
  reminder_id : String
  patient_name : String
  medicine_name : String
  dosage : String
  timing : String
  sent_via : List String
  status : String
deriving DecidableEq

/-- The most recent `n` entries of a list (`history[-n:]`). -/
def lastN {α : Type} (n : Nat) (l : List α) : List α :=
  l.drop (l.length - n)

/-- `_store_reminder_history`: append the new record, then keep only
the last 100 entries. -/
def storeReminderHistory (hist : List HistoryRecord) (r : HistoryRecord) :
    List HistoryRecord :=
  lastN 100 (hist ++ [r])

/-- Replaying a whole sequence of `record` operations from an empty
history. -/
def runHistory (rs : List HistoryRecord) : List HistoryRecord :=
  rs.foldl storeReminderHistory []

theorem take_cons_take {α : Type} (n : Nat) (r : α) (zs : List α) :
    List.take n (r :: List.take n zs) = List.take n (r :: zs) := by
  cases n with
  | zero => simp
  | succ k =>
    simp only [List.take_succ_cons, List.take_take]
    rw [Nat.min_eq_left (Nat.le_succ k)]

theorem lastN_append_last {α : Type} (n : Nat) (xs : List α) (r : α) :
    lastN n (lastN n xs ++ [r]) = lastN n (xs ++ [r]) := by
  have h : ∀ l : List α, lastN n l = l.rtake n := fun _ => rfl
  simp only [h, List.rtake_eq_reverse_take_reverse, List.reverse_append,
    List.reverse_singleton, List.singleton_append, List.reverse_reverse]
  rw [take_cons_take]

theorem runHistory_foldl_eq (rs : List HistoryRecord) :
    ∀ xs : List HistoryRecord,
      List.foldl storeReminderHistory (lastN 100 xs) rs = lastN 100 (xs ++ rs) := by
  induction rs with
  | nil => intro xs; simp
  | cons r rs ih =>
    intro xs
    have h1 : storeReminderHistory (lastN 100 xs) r = lastN 100 (xs ++ [r]) :=
      lastN_append_last 100 xs r
    calc List.foldl storeReminderHistory (lastN 100 xs) (r :: rs)
        = List.foldl storeReminderHistory (lastN 100 (xs ++ [r])) rs := by
          rw [List.foldl_cons, h1]
      _ = lastN 100 ((xs ++ [r]) ++ rs) := ih (xs ++ [r])
      _ = lastN 100 (xs ++ r :: rs) := by rw [List.append_assoc]; rfl

/-- C6: after any sequence of `record` operations the history holds at
most 100 entries, and the retained entries are exactly the most recent
100 in append order. -/
theorem reminder_history_bounded (rs : List HistoryRecord) :
    (runHistory rs).length ≤ 100 ∧ runHistory rs = lastN 100 rs := by
  have h : runHistory rs = lastN 100 rs := by
    have := runHistory_foldl_eq rs []
    simpa [runHistory, lastN] using this
  refine ⟨?_, h⟩
  rw [h]
  unfold lastN
  rw [List.length_drop]
  omega

/-! ## User preferences (`utils/user_manager.py`) -/

/-- A JSON preference value: boolean flag or string field. -/
inductive PrefVal
  | b (v : Bool)
  | s (v : String)
deriving DecidableEq

/-- A JSON object, keyed by strings (first binding wins on lookup). -/
abbrev Prefs := List (String × PrefVal)

/-- Lookup in an association list (Python `d[k]` / `d.get(k)`). -/
def assocLookup {β : Type} : List (String × β) → String → Option β
  | [], _ => none
  | kv :: t, k => if kv.1 = k then some kv.2 else assocLookup t k

/-- Python `d.get(k, default)`. -/
def dictGet (d : Prefs) (k : String) (dflt : PrefVal) : PrefVal :=
  (assocLookup d k).getD dflt

/-- Python truthiness of a preference value (`if email:` on `''` is
false). -/
def truthy : PrefVal → Bool
  | .b v => v
  | .s v => v ≠ ""

/-- `DEFAULT_PREFERENCES` from `utils/user_manager.py`. -/
def DEFAULT_PREFERENCES : Prefs :=
  [("notification_sound", .s "default"),
   ("reminder_frequency", .s "daily"),
   ("voice_enabled", .b true),
   ("push_notifications", .b true),
   ("email_notifications", .b false),
   ("sms_notifications", .b false),
   ("whatsapp_notifications", .b false),
   ("email", .s ""),
   ("phone", .s ""),
   ("whatsapp", .s "")]

/-- Python `base.copy(); base.update(upd)`: keys of `base` in order
with updated values, followed by the keys only present in `upd`. -/
def dictUpdate (base upd : Prefs) : Prefs :=
  base.map (fun kv => (kv.1, (assocLookup upd kv.1).getD kv.2)) ++
    upd.filter (fun kv => assocLookup base kv.1 = none)

/-- `get_user_preferences`: merge the stored preference file (if any)
over the defaults; a missing file (or any read error) yields the
defaults. -/
def get_user_preferences (stored : Option Prefs) : Prefs :=
  match stored with
  | some st => dictUpdate DEFAULT_PREFERENCES st
  | none => DEFAULT_PREFERENCES

/-! ## Notification dispatch
(`MedicationScheduler._send_medicine_reminder`) -/

/-- A notification delivery channel. -/
inductive Channel
  | push
  | email
  | sms
  | whatsapp
deriving DecidableEq

/-- The channel names used in the history file. -/
def channelName : Channel → String
  | .push => "push"
  | .email => "email"
  | .sms => "sms"
  | .whatsapp => "whatsapp"

/-- Outcome of each channel's delivery call (the boolean the
`send_*_notification` coroutine returns), had it been attempted. -/
structure ChannelResults where
  push : Bool
  email : Bool
  sms : Bool
  whatsapp : Bool
deriving DecidableEq

/-- Outcome of a channel's delivery call, by channel. -/
def chRes (res : ChannelResults) : Channel → Bool
  | .push => res.push
  | .email => res.email
  | .sms => res.sms
  | .whatsapp => res.whatsapp

/-- The dispatch core of `_send_medicine_reminder`: returns the list of
channels attempted (delivery calls made) and the `sent_via` list of
channels whose call returned success, in program order. -/
def dispatchReminder (prefs : Prefs) (res : ChannelResults) :
    List Channel × List Channel :=
  let pushOn := truthy (dictGet prefs "push_notifications" (.b true))
  let emailOn := truthy (dictGet prefs "email_notifications" (.b false)) &&
    truthy (dictGet prefs "email" (.s ""))
  let smsOn := truthy (dictGet prefs "sms_notifications" (.b false)) &&
    truthy (dictGet prefs "phone" (.s ""))
  let waOn := truthy (dictGet prefs "whatsapp_notifications" (.b false)) &&
    truthy (dictGet prefs "whatsapp" (.s ""))
  ((if pushOn then [Channel.push] else []) ++
     (if emailOn then [Channel.email] else []) ++
     (if smsOn then [Channel.sms] else []) ++
     (if waOn then [Channel.whatsapp] else []),
   (if pushOn && res.push then [Channel.push] else []) ++
     (if emailOn && res.email then [Channel.email] else []) ++
     (if smsOn && res.sms then [Channel.sms] else []) ++
     (if waOn && res.whatsapp then [Channel.whatsapp] else []))

/-- Spec-side characterization of attempted channels: enabled in the
preferences and, for email/SMS/WhatsApp, the required contact field is
non-empty. -/
def attemptedSpec (prefs : Prefs) : Channel → Bool
  | .push => truthy (dictGet prefs "push_notifications" (.b true))
  | .email => truthy (dictGet prefs "email_notifications" (.b false)) &&
      truthy (dictGet prefs "email" (.s ""))
  | .sms => truthy (dictGet prefs "sms_notifications" (.b false)) &&
      truthy (dictGet prefs "phone" (.s ""))
  | .whatsapp => truthy (dictGet prefs "whatsapp_notifications" (.b false)) &&
      truthy (dictGet prefs "whatsapp" (.s ""))

/-- Preferences of a patient with only email enabled: push explicitly
disabled, email enabled with address `e`, no phone or whatsapp. -/
def emailOnlyPrefs (e : String) : Prefs :=
  [("push_notifications", .b false),
   ("email_notifications", .b true),
   ("sms_notifications", .b false),
   ("whatsapp_notifications", .b false),
   ("email", .s e),
   ("phone", .s ""),
   ("whatsapp", .s "")]

theorem mem_ite_singleton {α : Type} (p : Prop) [Decidable p] (x y : α) :
    (y ∈ if p then [x] else []) ↔ p ∧ y = x := by
  split <;> simp_all

/-- C8: dispatch attempts exactly the channels that are enabled and
have their required contact field; a channel is in `sent_via` iff it
was attempted and its delivery call returned success; for an email-only
patient with a non-empty address, exactly the email channel is
attempted and it is reported in `sent_via` iff email delivery
succeeded. -/
theorem dispatch_channels_spec (prefs : Prefs) (res : ChannelResults) :
    (∀ c, c ∈ (dispatchReminder prefs res).1 ↔ attemptedSpec prefs c = true) ∧
    (∀ c, c ∈ (dispatchReminder prefs res).2 ↔
      c ∈ (dispatchReminder prefs res).1 ∧ chRes res c = true) ∧
    (∀ e : String, e ≠ "" →
      (dispatchReminder (emailOnlyPrefs e) res).1 = [Channel.email] ∧
      (dispatchReminder (emailOnlyPrefs e) res).2
        = (if res.email then [Channel.email] else [])) := by
  refine ⟨?_, ?_, ?_⟩
  · intro c
    cases c <;>
      simp [dispatchReminder, attemptedSpec, List.mem_append, mem_ite_singleton]
  · intro c
    cases c <;>
      simp [dispatchReminder, attemptedSpec, chRes, List.mem_append,
        mem_ite_singleton]
  · intro e he
    constructor <;>
      simp [dispatchReminder, emailOnlyPrefs, dictGet, assocLookup, truthy, he]

/-- C8 witness: an email-only patient with address `"a@b.com"` gets
exactly one attempted channel. -/
theorem dispatch_channels_spec_witness :
    (dispatchReminder (emailOnlyPrefs "a@b.com") ⟨false, true, false, false⟩).1
      = [Channel.email] :=
  ((dispatch_channels_spec [] ⟨false, true, false, false⟩).2.2 "a@b.com"
    (by decide)).1

/-! ## Firing a reminder and recording history -/

/-- The history-recording behaviour of `_send_medicine_reminder`: the
reminder history is updated only inside `if sent_successfully:`; when
no channel succeeded the function merely logs a warning and the history
file is left untouched. -/
def fireAndRecord (prefs : Prefs) (res : ChannelResults)
    (hist : List HistoryRecord) (base : HistoryRecord) : List HistoryRecord :=
  let via := (dispatchReminder prefs res).2
  if via.isEmpty then hist
  else storeReminderHistory hist
    { base with sent_via := via.map channelName, status := "sent" }

/-- Preferences with only push notifications enabled. -/
def pushOnlyPrefs : Prefs :=
  [("push_notifications", .b true),
   ("email_notifications", .b false),
   ("sms_notifications", .b false),
   ("whatsapp_notifications", .b false),
   ("email", .s ""),
   ("phone", .s ""),
   ("whatsapp", .s "")]

/-- A sample base history record for a firing. -/
def sampleRecord : HistoryRecord :=
  ⟨"2026-01-01T08:00:00", "r-1", "Alice", "Amoxicillin", "500mg",
   "8:00 AM", [], ""⟩

/-- C7: evaluating the code at a firing where the only attempted
channel (push) fails: the channel is attempted, yet the history is left
empty — no record with a failed status is ever written, because
`_store_reminder_history` is only called when `sent_successfully` is
true. -/
theorem failed_delivery_not_recorded :
    (dispatchReminder pushOnlyPrefs ⟨false, false, false, false⟩).1
      = [Channel.push] ∧
    (dispatchReminder pushOnlyPrefs ⟨false, false, false, false⟩).2 = [] ∧
    fireAndRecord pushOnlyPrefs ⟨false, false, false, false⟩ [] sampleRecord
      = [] := by decide

/-! ## Removing a patient's reminders
(`MedicationScheduler.remove_patient_reminders`) -/

/-- `patient_name.replace(" ", "_")`. -/
def underscoreName (name : String) : String :=
  ⟨name.data.map (fun c => if c = ' ' then '_' else c)⟩

/-- Python `str(job.tags)` for a job carrying a single tag. -/
def tagSetStr (tag : String) : String :=
  "\x7b'" ++ tag ++ "'\x7d"

/-- The scheduler state touched by `remove_patient_reminders`: the
`schedule` library's job list (one tag per job) and the per-patient
cache of scheduled reminders. -/
structure SchedulerState where
  jobs : List String
  cache : List (String × List String)
deriving DecidableEq

/-- `remove_patient_reminders`: cancel every job whose stringified tag
set contains the underscored patient name as a substring, and drop the
patient's cache entry if present. -/
def removePatientReminders (st : SchedulerState) (name : String) :
    SchedulerState :=
  { jobs := st.jobs.filter
      (fun tag => !containsSub (underscoreName name).data (tagSetStr tag).data),
    cache := st.cache.filter (fun kv => kv.1 ≠ name) }

/-- A state holding one scheduled job and one cache entry, both for
patient `"Bobby"`. -/
def bobbyState : SchedulerState :=
  ⟨["Bobby_Amoxicillin_8:00_AM"], [("Bobby", ["Amoxicillin at 08:00"])]⟩

/-- C9 (counterexample): removing reminders for the unknown patient
`"Bob"` — who has no cache entry and no job of his own — nevertheless
cancels patient `"Bobby"`'s scheduled job, because job cancellation
matches the patient name as a substring of the stringified tags. -/
theorem remove_unknown_patient_counterexample :
    assocLookup bobbyState.cache "Bob" = none ∧
    bobbyState.jobs ≠ [] ∧
    (removePatientReminders bobbyState "Bob").jobs = [] := by decide

/-- C9 (amended): `remove_patient_reminders` is idempotent and leaves
the cache of an unknown patient untouched without error; but it cancels
every job whose tag string contains the underscored name as a
substring, so it is a full no-op for an unknown patient only when the
name occurs in no other patient's job tag. -/
theorem remove_patient_reminders_amended (st : SchedulerState) (name : String) :
    removePatientReminders (removePatientReminders st name) name
      = removePatientReminders st name ∧
    ((∀ kv ∈ st.cache, kv.1 ≠ name) →
      (removePatientReminders st name).cache = st.cache) ∧
    ((∀ kv ∈ st.cache, kv.1 ≠ name) →
      (∀ tag ∈ st.jobs,
        containsSub (underscoreName name).data (tagSetStr tag).data = false) →
      removePatientReminders st name = st) := by
  refine ⟨?_, ?_, ?_⟩
  · simp only [removePatientReminders, List.filter_filter, Bool.and_self]
  · intro hcache
    simp only [removePatientReminders]
    exact List.filter_eq_self.mpr (fun kv hkv => by simp [hcache kv hkv])
  · intro hcache hjobs
    cases st with
    | mk jobs cache =>
      simp only [removePatientReminders, SchedulerState.mk.injEq]
      constructor
      · exact List.filter_eq_self.mpr (fun tag htag => by simp [hjobs tag htag])
      · exact List.filter_eq_self.mpr (fun kv hkv => by simp [hcache kv hkv])

/-- C9 witness: removing the unknown patient `"Zed"`, whose name occurs
in no job tag, is a full no-op. -/
theorem remove_patient_reminders_amended_witness :
    removePatientReminders ⟨["Alice_Med_9:00_AM"], [("Alice", ["m"])]⟩ "Zed"
      = ⟨["Alice_Med_9:00_AM"], [("Alice", ["m"])]⟩ :=
  (remove_patient_reminders_amended
    ⟨["Alice_Med_9:00_AM"], [("Alice", ["m"])]⟩ "Zed").2.2
    (by decide) (by decide)

/-! ## Preference defaults (claim C10) -/

theorem assocLookup_update_map (st d : Prefs) (k : String) :
    assocLookup (d.map (fun kv => (kv.1, (assocLookup st kv.1).getD kv.2))) k
      = (assocLookup d k).map (fun v => (assocLookup st k).getD v) := by
  induction d with
  | nil => rfl
  | cons kv t ih =>
    simp only [List.map_cons, assocLookup]
    by_cases h : kv.1 = k
    · subst h; simp
    · simp [h, ih]

theorem assocLookup_append_of_isSome {β : Type} (a b : List (String × β))
    (k : String) (h : (assocLookup a k).isSome) :
    assocLookup (a ++ b) k = assocLookup a k := by
  induction a with
  | nil => simp [assocLookup] at h
  | cons kv t ih =>
    simp only [List.cons_append, assocLookup]
    by_cases hk : kv.1 = k
    · simp [hk]
    · simp only [hk, if_false]
      exact ih (by simpa [assocLookup, hk] using h)

/-- C10: reading preferences is default-complete — every key of the
default preference set is present, a stored value overriding the
default key-by-key — and with no stored preferences the result is
exactly the defaults, in which push notifications are enabled while
email, SMS and WhatsApp are disabled with empty contact fields. -/
theorem get_user_preferences_defaults (stored : Option Prefs) :
    (∀ k dv, assocLookup DEFAULT_PREFERENCES k = some dv →
      assocLookup (get_user_preferences stored) k
        = some ((stored.bind (fun st => assocLookup st k)).getD dv)) ∧
    get_user_preferences none = DEFAULT_PREFERENCES ∧
    assocLookup DEFAULT_PREFERENCES "push_notifications" = some (.b true) ∧
    assocLookup DEFAULT_PREFERENCES "email_notifications" = some (.b false) ∧
    assocLookup DEFAULT_PREFERENCES "sms_notifications" = some (.b false) ∧
    assocLookup DEFAULT_PREFERENCES "whatsapp_notifications" = some (.b false) ∧
    assocLookup DEFAULT_PREFERENCES "email" = some (.s "") ∧
    assocLookup DEFAULT_PREFERENCES "phone" = some (.s "") ∧
    assocLookup DEFAULT_PREFERENCES "whatsapp" = some (.s "") := by
  refine ⟨?_, rfl, by decide, by decide, by decide, by decide, by decide,
    by decide, by decide⟩
  intro k dv hdv
  cases stored with
  | none => simpa [get_user_preferences] using hdv
  | some st =>
    simp only [get_user_preferences, dictUpdate, Option.some_bind]
    rw [assocLookup_append_of_isSome]
    · rw [assocLookup_update_map, hdv]
      rfl
    · rw [assocLookup_update_map, hdv]
      rfl

/-- C10 witness: with no stored preferences, push notifications default
to enabled. -/
theorem get_user_preferences_defaults_witness :
    assocLookup (get_user_preferences none) "push_notifications"
      = some (PrefVal.b true) :=
  (get_user_preferences_defaults none).1 "push_notifications" (PrefVal.b true)
    (by decide)

end MedAlert
